import Mathlib

/-!
Shallow embedding of the ScreenGuard alert dispatch engine
(src/services/alert_service.py), the gaze classifier
(src/models/screen_peek_detector.py) and the detection session manager
(src/api/detection_routes.py).

Python floats (timestamps, confidences, thresholds) are embedded as ℚ;
all comparisons in the source are order comparisons, which ℚ models
exactly on the rational inputs used here.  Python dictionaries keyed by
the string `f"{user_id}_{alert_type.value}"` are embedded as functions of
the pair `(user_id, alert_type)`: the six `AlertType` values contain no
underscore, so the string key determines and is determined by the pair.
Missing dictionary keys are modelled by the default the source installs
(`[]` for rate lists, absence as `Option`/`none` for cooldowns and
configurations).  `time.time()` is passed in as an explicit `current_time`
argument: the source reads the clock several times inside one call, and
the embedding identifies those reads within a single call.
-/

/-! ## Data model (src/services/alert_service.py lines 18-54) -/

inductive AlertType where
  | visual
  | audio
  | haptic
  | notification
  | email
  | sms
deriving DecidableEq, Repr

def AlertType.value : AlertType → String
  | .visual => "visual"
  | .audio => "audio"
  | .haptic => "haptic"
  | .notification => "notification"
  | .email => "email"
  | .sms => "sms"

inductive AlertLevel where
  | low
  | medium
  | high
  | critical
deriving DecidableEq, Repr

structure AlertConfig where
  alert_type : AlertType
  enabled : Bool := true
  threshold : ℚ := 7/10
  cooldown : ℚ := 5
  max_frequency : ℕ := 10
  custom_message : Option String := none
deriving DecidableEq, Repr

structure AlertEvent where
  alert_id : String
  user_id : String
  alert_type : AlertType
  level : AlertLevel
  message : String
  timestamp : ℚ
  confidence : ℚ
  metadata : List (String × String)
deriving DecidableEq, Repr

/-- A channel handler (`Callable` registered via `register_callback`);
a raised exception is modelled by `Except.error`. -/
def Handler : Type := AlertEvent → Except String Unit

structure AlertService where
  alert_configs : AlertType → Option AlertConfig
  alert_history : List AlertEvent
  alert_callbacks : AlertType → List Handler
  rate_limits : String → AlertType → List ℚ
  cooldowns : String → AlertType → Option ℚ

/-- The default visual configuration (lines 80-86): threshold 0.7,
cooldown 3 s, at most 20 per minute. -/
def defaultVisualConfig : AlertConfig :=
  { alert_type := .visual, enabled := true, threshold := 7/10, cooldown := 3,
    max_frequency := 20 }

/-- `_setup_default_configs` (lines 77-112): visual, audio, haptic and
notification get default configurations; email and sms get none. -/
def setup_default_configs : AlertType → Option AlertConfig
  | .visual => some defaultVisualConfig
  | .audio => some { alert_type := .audio, enabled := true, threshold := 8/10,
                     cooldown := 5, max_frequency := 10 }
  | .haptic => some { alert_type := .haptic, enabled := true, threshold := 6/10,
                      cooldown := 2, max_frequency := 30 }
  | .notification => some { alert_type := .notification, enabled := true, threshold := 7/10,
                            cooldown := 10, max_frequency := 5 }
  | .email => none
  | .sms => none

/-- `AlertService.__init__` (lines 64-75). -/
def AlertService.init : AlertService where
  alert_configs := setup_default_configs
  alert_history := []
  alert_callbacks := fun _ => []
  rate_limits := fun _ _ => []
  cooldowns := fun _ _ => none

/-- `register_callback` (lines 114-126). -/
def AlertService.register_callback (s : AlertService) (ty : AlertType) (cb : Handler) :
    AlertService :=
  { s with alert_callbacks :=
      fun t => if t = ty then s.alert_callbacks ty ++ [cb] else s.alert_callbacks t }

/-- `update_config` (lines 128-137): unconditionally installs the new
configuration for the channel; the source performs no validation. -/
def AlertService.update_config (s : AlertService) (ty : AlertType) (config : AlertConfig) :
    AlertService :=
  { s with alert_configs := fun t => if t = ty then some config else s.alert_configs t }

/-- Lines 162-175 of `_can_send_alert`: prune timestamps older than 60
seconds (the pruned list is written back into `rate_limits`), then reject
when the pruned count has reached `max_frequency`. -/
def AlertService.rate_window_check (s : AlertService) (current_time : ℚ) (user_id : String)
    (ty : AlertType) (config : AlertConfig) : AlertService × Bool :=
  let pruned := (s.rate_limits user_id ty).filter (fun ts => current_time - 60 < ts)
  let s' : AlertService :=
    { s with rate_limits :=
        fun u t => if u = user_id ∧ t = ty then pruned else s.rate_limits u t }
  if config.max_frequency ≤ pruned.length then (s', false) else (s', true)

/-- `_can_send_alert` (lines 139-177): missing or disabled configuration
rejects; then the cooldown gate; then the rate-window gate. -/
def AlertService.can_send_alert (s : AlertService) (current_time : ℚ) (user_id : String)
    (ty : AlertType) : AlertService × Bool :=
  match s.alert_configs ty with
  | none => (s, false)
  | some config =>
    if config.enabled = false then (s, false)
    else
      match s.cooldowns user_id ty with
      | some last =>
        if current_time - last < config.cooldown then (s, false)
        else s.rate_window_check current_time user_id ty config
      | none => s.rate_window_check current_time user_id ty config

/-- `_update_rate_limits` (lines 179-190): append the send time to the
rate list and record it as the last-sent time. -/
def AlertService.update_rate_limits (s : AlertService) (current_time : ℚ) (user_id : String)
    (ty : AlertType) : AlertService :=
  { s with
    rate_limits := fun u t =>
      if u = user_id ∧ t = ty then s.rate_limits user_id ty ++ [current_time]
      else s.rate_limits u t
    cooldowns := fun u t =>
      if u = user_id ∧ t = ty then some current_time else s.cooldowns u t }

/-- The message fallback of line 235: `message or config.custom_message or
"Screen peeking detected!"` — an empty (falsy) string falls through. -/
def resolve_message (message : String) (config : AlertConfig) : String :=
  if message = "" then
    match config.custom_message with
    | some m => if m = "" then "Screen peeking detected!" else m
    | none => "Screen peeking detected!"
  else message

/-- `send_alert` (lines 192-259).  Returns the new state, the admitted
flag, and the outcome of every handler invocation (lines 247-256 run each
registered callback under `try/except`: an `Except.error` is logged and
swallowed, never re-raised, and the loop continues with the next
handler).  The admitted flag is decided before any handler runs. -/
def AlertService.send_alert (s : AlertService) (current_time : ℚ) (user_id : String)
    (ty : AlertType) (level : AlertLevel) (message : String) (confidence : ℚ)
    (metadata : List (String × String)) : AlertService × Bool × List (Except String Unit) :=
  match s.alert_configs ty with
  | none => (s, false, [])
  | some config =>
    if confidence < config.threshold then (s, false, [])
    else
      let cs := s.can_send_alert current_time user_id ty
      if cs.2 = true then
        let alert_id := user_id ++ "_" ++ ty.value ++ "_" ++ toString ⌊current_time * 1000⌋
        let ev : AlertEvent :=
          { alert_id := alert_id, user_id := user_id, alert_type := ty, level := level
            message := resolve_message message config, timestamp := current_time
            confidence := confidence, metadata := metadata }
        let s2 : AlertService := { cs.1 with alert_history := cs.1.alert_history ++ [ev] }
        let s3 := s2.update_rate_limits current_time user_id ty
        (s3, true, (s3.alert_callbacks ty).map (fun cb => cb ev))
      else (cs.1, false, [])

/-- `send_multiple_alerts` (lines 261-298): the coroutines are created for
every requested type and then awaited in list order, so the sends execute
sequentially in order; `send_alert` never raises (handler errors are
swallowed inside it), so each result is the admitted flag. -/
def AlertService.send_multiple_alerts (s : AlertService) (current_time : ℚ) (user_id : String)
    (alert_types : List AlertType) (level : AlertLevel) (message : String) (confidence : ℚ)
    (metadata : List (String × String)) : AlertService × List (AlertType × Bool) :=
  match alert_types with
  | [] => (s, [])
  | ty :: rest =>
    let r := s.send_alert current_time user_id ty level message confidence metadata
    let r' := r.1.send_multiple_alerts current_time user_id rest level message confidence metadata
    (r'.1, (ty, r.2.1) :: r'.2)

/-- Python tail slice `l[-limit:]` for `limit ≥ 0`; note `l[-0:]` is the
whole list. -/
def pyTailSlice (limit : ℕ) (l : List AlertEvent) : List AlertEvent :=
  if limit = 0 then l else l.drop (l.length - limit)

/-- `get_alert_history` (lines 300-316).  The source tests `if user_id:`,
so an empty user id behaves like `None` (no filtering). -/
def AlertService.get_alert_history (s : AlertService) (user_id : Option String)
    (limit : ℕ := 100) : List AlertEvent :=
  match user_id with
  | some uid =>
    if uid = "" then pyTailSlice limit s.alert_history
    else pyTailSlice limit (s.alert_history.filter (fun a => a.user_id = uid))
  | none => pyTailSlice limit s.alert_history

structure AlertStats where
  total_alerts : ℕ
  alerts_by_type : AlertType → ℕ
  alerts_by_level : AlertLevel → ℕ
  average_confidence : ℚ
  recent_alerts : ℕ

/-- The accumulation loop of `get_alert_stats` (lines 349-363): per-type
counts, per-level counts, summed confidence, and the count of alerts with
timestamp inside the trailing hour.  A dictionary key never incremented is
read back as 0 via `.get(k, 0)`. -/
def stats_step (one_hour_ago : ℚ) (acc : (AlertType → ℕ) × (AlertLevel → ℕ) × ℚ × ℕ)
    (a : AlertEvent) : (AlertType → ℕ) × (AlertLevel → ℕ) × ℚ × ℕ :=
  (fun t => if t = a.alert_type then acc.1 t + 1 else acc.1 t,
   fun l => if l = a.level then acc.2.1 l + 1 else acc.2.1 l,
   acc.2.2.1 + a.confidence,
   if one_hour_ago < a.timestamp then acc.2.2.2 + 1 else acc.2.2.2)

def stats_loop (alerts : List AlertEvent) (one_hour_ago : ℚ) :
    (AlertType → ℕ) × (AlertLevel → ℕ) × ℚ × ℕ :=
  alerts.foldl (stats_step one_hour_ago) (fun _ => 0, fun _ => 0, 0, 0)

/-- `get_alert_stats` (lines 318-371).  It aggregates over
`get_alert_history(user_id)`, i.e. with the default `limit` of 100. -/
def AlertService.get_alert_stats (s : AlertService) (current_time : ℚ)
    (user_id : Option String) : AlertStats :=
  let alerts := s.get_alert_history user_id
  if alerts.isEmpty then
    { total_alerts := 0, alerts_by_type := fun _ => 0, alerts_by_level := fun _ => 0
      average_confidence := 0, recent_alerts := 0 }
  else
    let r := stats_loop alerts (current_time - 3600)
    { total_alerts := alerts.length
      alerts_by_type := r.1
      alerts_by_level := r.2.1
      average_confidence := if alerts.length > 0 then r.2.2.1 / alerts.length else 0
      recent_alerts := r.2.2.2 }

/-- `clear_history` (lines 373-385); `if user_id:` is a truthiness test,
so an empty user id clears everything. -/
def AlertService.clear_history (s : AlertService) (user_id : Option String) : AlertService :=
  match user_id with
  | some uid =>
    if uid = "" then { s with alert_history := [] }
    else { s with alert_history := s.alert_history.filter (fun a => ¬ a.user_id = uid) }
  | none => { s with alert_history := [] }

/-! ## Traces of `send_alert` calls

To state the rate-limit and cooldown invariants we run a sequence of
`send_alert` calls against a service; the only hypothesis is that call
times are chronological (the wall clock does not run backwards between
calls). -/

structure SendCall where
  time : ℚ
  user : String
  ty : AlertType
  level : AlertLevel
  message : String
  confidence : ℚ
  metadata : List (String × String)

def runCall (s : AlertService) (c : SendCall) : AlertService × Bool :=
  let r := s.send_alert c.time c.user c.ty c.level c.message c.confidence c.metadata
  (r.1, r.2.1)

def runTrace (s : AlertService) : List SendCall → AlertService
  | [] => s
  | c :: tr => runTrace (runCall s c).1 tr

/-- The timestamps of the calls for `(u, ty)` that were admitted
(`send_alert` returned `True`), in call order. -/
def admittedTimes (s : AlertService) (u : String) (ty : AlertType) :
    List SendCall → List ℚ
  | [] => []
  | c :: tr =>
    (if (runCall s c).2 = true ∧ c.user = u ∧ c.ty = ty then [c.time] else []) ++
      admittedTimes (runCall s c).1 u ty tr

/-- Call times never decrease along the trace. -/
def Chronological (tr : List SendCall) : Prop :=
  List.Pairwise (fun a b => a.time ≤ b.time) tr

/-! ## Gaze classifier (src/models/screen_peek_detector.py) -/

/-- `estimate_gaze_direction` lines 150-153: any failure of gaze
estimation (exception, empty face region, no landmarks) yields the
fallback angles `(0.0, 0.0)`. -/
def gaze_failure_result : ℚ × ℚ := (0, 0)

/-- `is_looking_at_screen` (lines 209-230): both absolute angles must be
inside the fixed thresholds (pitch 15°, yaw 20°). -/
def is_looking_at_screen (gaze_angles : ℚ × ℚ) : Bool :=
  decide (|gaze_angles.1| < 15) && decide (|gaze_angles.2| < 20)

/-- One detected face as seen by the `process_frame` loop: its detection
confidence and the gaze angles `estimate_gaze_direction` produced for it
(`gaze_failure_result` when estimation failed). -/
structure FaceObservation where
  confidence : ℚ
  gaze : ℚ × ℚ

structure DetectionResult where
  is_peeking : Bool
  confidence : ℚ
  face_count : ℕ
  gaze_angles : List (ℚ × ℚ)
  timestamp : ℚ

/-- The per-face loop of `process_frame` (lines 250-261): accumulates
`(is_peeking, max_confidence, gaze_angles)`. -/
def process_frame_loop (faces : List FaceObservation) : Bool × ℚ × List (ℚ × ℚ) :=
  faces.foldl
    (fun acc f =>
      if is_looking_at_screen f.gaze then
        (true, max acc.2.1 f.confidence, acc.2.2 ++ [f.gaze])
      else (acc.1, acc.2.1, acc.2.2 ++ [f.gaze]))
    (false, 0, [])

/-- `process_frame` (lines 232-272), with face detection and gaze
estimation already folded into the `FaceObservation` inputs. -/
def process_frame (faces : List FaceObservation) (timestamp : ℚ) : DetectionResult :=
  let r := process_frame_loop faces
  { is_peeking := r.1
    confidence := if r.1 = true then r.2.1 else 0
    face_count := faces.length
    gaze_angles := r.2.2
    timestamp := timestamp }

/-! ## Detection session manager (src/api/detection_routes.py)

`manager.detection_tasks` is a dict from user id to a live asyncio task;
tasks are modelled by numeric handles issued in creation order, with a
status map recording whether each spawned loop is still running.  The
frames written through `manager.send_detection_update` are recorded as
`(user, frame type)` pairs. -/

inductive TaskStatus where
  | running
  | done
deriving DecidableEq, Repr

structure DetectionSystem where
  detection_tasks : List (String × ℕ)
  task_status : ℕ → Option TaskStatus
  next_handle : ℕ
  pushed : List (String × String)

def DetectionSystem.init : DetectionSystem where
  detection_tasks := []
  task_status := fun _ => none
  next_handle := 0
  pushed := []

/-- `start_continuous_detection` (lines 323-349): if the user already has
an entry in `detection_tasks` — whether or not that task's loop is still
alive — return without doing anything; otherwise spawn the loop task and
register it. -/
def start_continuous_detection (m : DetectionSystem) (u : String) : DetectionSystem :=
  if m.detection_tasks.any (fun p => p.1 = u) then m
  else
    { m with
      detection_tasks := m.detection_tasks ++ [(u, m.next_handle)]
      task_status := fun h => if h = m.next_handle then some .running else m.task_status h
      next_handle := m.next_handle + 1 }

/-- What the running loop body (lines 328-346) does on one iteration:
on a normal tick it pushes a `status_update` frame; on cancellation it
breaks; on an unexpected error it logs and breaks — it pushes no frame
and does not touch `manager.detection_tasks`. -/
inductive LoopEvent where
  | tick
  | cancelled
  | error

def detection_loop_step (m : DetectionSystem) (u : String) (handle : ℕ) :
    LoopEvent → DetectionSystem
  | .tick => { m with pushed := m.pushed ++ [(u, "status_update")] }
  | .cancelled =>
    { m with task_status := fun h => if h = handle then some .done else m.task_status h }
  | .error =>
    { m with task_status := fun h => if h = handle then some .done else m.task_status h }

/-- `stop_detection` (lines 351-371): cancel and drop the user's task if
one is registered; always report `detection_stopped: True`. -/
def stop_detection (m : DetectionSystem) (u : String) : DetectionSystem × Bool :=
  match m.detection_tasks.find? (fun p => p.1 = u) with
  | some p =>
    ({ m with
       detection_tasks := m.detection_tasks.filter (fun q => ¬ q.1 = u)
       task_status := fun h => if h = p.2 then some .done else m.task_status h }, true)
  | none => (m, true)

/-! ## Characterization lemmas for the admission path -/

/-- The state `_can_send_alert` leaves behind once it has pruned the rate
window for `(u, ty)` (proof-layer abbreviation). -/
def prunedRateState (s : AlertService) (t : ℚ) (u : String) (ty : AlertType) : AlertService :=
  { s with rate_limits := fun u' t' =>
      if u' = u ∧ t' = ty then (s.rate_limits u ty).filter (fun ts => t - 60 < ts)
      else s.rate_limits u' t' }

/-- The AlertEvent constructed on the admitted path (lines 228-239). -/
def sendAdmitEvent (t : ℚ) (u : String) (ty : AlertType) (lvl : AlertLevel) (msg : String)
    (conf : ℚ) (meta : List (String × String)) (cfg : AlertConfig) : AlertEvent :=
  { alert_id := u ++ "_" ++ ty.value ++ "_" ++ toString ⌊t * 1000⌋
    user_id := u, alert_type := ty, level := lvl
    message := resolve_message msg cfg, timestamp := t, confidence := conf, metadata := meta }

/-- The full result of `send_alert` on the admitted path
(proof-layer abbreviation). -/
def sendAdmitResult (s : AlertService) (t : ℚ) (u : String) (ty : AlertType) (lvl : AlertLevel)
    (msg : String) (conf : ℚ) (meta : List (String × String)) (cfg : AlertConfig) :
    AlertService × Bool × List (Except String Unit) :=
  let ev := sendAdmitEvent t u ty lvl msg conf meta cfg
  let s1 := (s.can_send_alert t u ty).1
  let s2 : AlertService := { s1 with alert_history := s1.alert_history ++ [ev] }
  let s3 := s2.update_rate_limits t u ty
  (s3, true, (s3.alert_callbacks ty).map (fun cb => cb ev))

def bigHistoryService : AlertService :=
  { AlertService.init with
    alert_history := List.replicate 101
      { alert_id := "a", user_id := "u", alert_type := .visual, level := .medium,
        message := "m", timestamp := 0, confidence := 1/2, metadata := [] } }

def invalidConfig : AlertConfig :=
  { alert_type := .visual, enabled := true, threshold := 2, cooldown := 3,
    max_frequency := 20, custom_message := none }

theorem rate_window_check_fst (s : AlertService) (t : ℚ) (u : String) (ty : AlertType)
    (cfg : AlertConfig) :
    (s.rate_window_check t u ty cfg).1 = prunedRateState s t u ty := by
  unfold AlertService.rate_window_check prunedRateState
  dsimp only
  split <;> rfl

theorem rate_window_check_snd (s : AlertService) (t : ℚ) (u : String) (ty : AlertType)
    (cfg : AlertConfig) :
    (s.rate_window_check t u ty cfg).2 = true ↔
      ((s.rate_limits u ty).filter (fun ts => t - 60 < ts)).length < cfg.max_frequency := by
  unfold AlertService.rate_window_check
  dsimp only
  split <;> simp_all

theorem can_send_alert_cases (s : AlertService) (t : ℚ) (u : String) (ty : AlertType) :
    s.can_send_alert t u ty = (s, false) ∨
    (s.can_send_alert t u ty).1 = prunedRateState s t u ty := by
  unfold AlertService.can_send_alert
  split
  · exact Or.inl rfl
  · split
    · exact Or.inl rfl
    · split
      · split
        · exact Or.inl rfl
        · exact Or.inr (rate_window_check_fst ..)
      · exact Or.inr (rate_window_check_fst ..)

theorem can_send_alert_true_fst (s : AlertService) (t : ℚ) (u : String) (ty : AlertType)
    (h : (s.can_send_alert t u ty).2 = true) :
    (s.can_send_alert t u ty).1 = prunedRateState s t u ty := by
  rcases can_send_alert_cases s t u ty with hc | hc
  · rw [hc] at h
    simp at h
  · exact hc

theorem can_send_alert_true_conds (s : AlertService) (t : ℚ) (u : String) (ty : AlertType)
    (h : (s.can_send_alert t u ty).2 = true) :
    ∃ cfg, s.alert_configs ty = some cfg ∧ cfg.enabled = true ∧
      (∀ last, s.cooldowns u ty = some last → cfg.cooldown ≤ t - last) ∧
      ((s.rate_limits u ty).filter (fun ts => t - 60 < ts)).length < cfg.max_frequency := by
  unfold AlertService.can_send_alert at h
  split at h
  · simp at h
  next cfg hcfg =>
    split at h
    · simp at h
    next hen =>
      split at h
      next last hlast =>
        split at h
        · simp at h
        next hcool =>
          refine ⟨cfg, hcfg, by simpa using hen, ?_, (rate_window_check_snd ..).mp h⟩
          intro l hl
          rw [hlast] at hl
          injection hl with h'
          subst h'
          exact not_lt.mp hcool
      next hnone =>
        refine ⟨cfg, hcfg, by simpa using hen, ?_, (rate_window_check_snd ..).mp h⟩
        intro l hl
        rw [hnone] at hl
        exact absurd hl (by simp)

theorem prunedRateState_rate_ne (s : AlertService) (t : ℚ) (u : String) (ty : AlertType)
    (u' : String) (ty' : AlertType) (h : ¬ (u' = u ∧ ty' = ty)) :
    (prunedRateState s t u ty).rate_limits u' ty' = s.rate_limits u' ty' := by
  simp only [prunedRateState, if_neg h]

theorem prunedRateState_rate_self (s : AlertService) (t : ℚ) (u : String) (ty : AlertType) :
    (prunedRateState s t u ty).rate_limits u ty =
      (s.rate_limits u ty).filter (fun ts => t - 60 < ts) := by
  simp [prunedRateState]


/-- Complete case analysis of one `send_alert` call. -/
theorem send_alert_eq (s : AlertService) (t : ℚ) (u : String) (ty : AlertType)
    (lvl : AlertLevel) (msg : String) (conf : ℚ) (meta : List (String × String)) :
    (s.send_alert t u ty lvl msg conf meta = (s, false, []) ∧
      (s.alert_configs ty = none ∨
        ∃ cfg, s.alert_configs ty = some cfg ∧ conf < cfg.threshold)) ∨
    (∃ cfg, s.alert_configs ty = some cfg ∧ ¬ conf < cfg.threshold ∧
      (s.can_send_alert t u ty).2 = false ∧
      s.send_alert t u ty lvl msg conf meta = ((s.can_send_alert t u ty).1, false, [])) ∨
    (∃ cfg, s.alert_configs ty = some cfg ∧ ¬ conf < cfg.threshold ∧
      (s.can_send_alert t u ty).2 = true ∧
      s.send_alert t u ty lvl msg conf meta = sendAdmitResult s t u ty lvl msg conf meta cfg) := by
  unfold AlertService.send_alert
  dsimp only
  split
  next hnone => exact Or.inl ⟨rfl, Or.inl hnone⟩
  next cfg hcfg =>
    split
    next hth => exact Or.inl ⟨rfl, Or.inr ⟨cfg, hcfg, hth⟩⟩
    next hth =>
      split
      next htrue =>
        exact Or.inr (Or.inr ⟨cfg, hcfg, hth, htrue, rfl⟩)
      next hfalse =>
        exact Or.inr (Or.inl ⟨cfg, hcfg, hth, by simpa using hfalse, rfl⟩)

theorem can_send_alert_fst_configs (s : AlertService) (t : ℚ) (u : String) (ty : AlertType) :
    (s.can_send_alert t u ty).1.alert_configs = s.alert_configs := by
  rcases can_send_alert_cases s t u ty with hc | hc
  · rw [hc]
  · rw [hc]
    rfl

theorem can_send_alert_fst_history (s : AlertService) (t : ℚ) (u : String) (ty : AlertType) :
    (s.can_send_alert t u ty).1.alert_history = s.alert_history := by
  rcases can_send_alert_cases s t u ty with hc | hc
  · rw [hc]
  · rw [hc]
    rfl

theorem can_send_alert_fst_callbacks (s : AlertService) (t : ℚ) (u : String) (ty : AlertType) :
    (s.can_send_alert t u ty).1.alert_callbacks = s.alert_callbacks := by
  rcases can_send_alert_cases s t u ty with hc | hc
  · rw [hc]
  · rw [hc]
    rfl

theorem can_send_alert_fst_cooldowns (s : AlertService) (t : ℚ) (u : String) (ty : AlertType) :
    (s.can_send_alert t u ty).1.cooldowns = s.cooldowns := by
  rcases can_send_alert_cases s t u ty with hc | hc
  · rw [hc]
  · rw [hc]
    rfl

theorem can_send_alert_fst_rate_ne (s : AlertService) (t : ℚ) (u : String) (ty : AlertType)
    (u' : String) (ty' : AlertType) (h : ¬ (u' = u ∧ ty' = ty)) :
    (s.can_send_alert t u ty).1.rate_limits u' ty' = s.rate_limits u' ty' := by
  rcases can_send_alert_cases s t u ty with hc | hc
  · rw [hc]
  · rw [hc]
    exact prunedRateState_rate_ne s t u ty u' ty' h

theorem send_alert_configs (s : AlertService) (t : ℚ) (u : String) (ty : AlertType)
    (lvl : AlertLevel) (msg : String) (conf : ℚ) (meta : List (String × String)) :
    (s.send_alert t u ty lvl msg conf meta).1.alert_configs = s.alert_configs := by
  rcases send_alert_eq s t u ty lvl msg conf meta with ⟨he, -⟩ | ⟨cfg, -, -, -, he⟩ |
    ⟨cfg, -, -, -, he⟩
  · rw [he]
  · rw [he]
    exact can_send_alert_fst_configs ..
  · rw [he]
    exact can_send_alert_fst_configs ..

theorem send_alert_callbacks (s : AlertService) (t : ℚ) (u : String) (ty : AlertType)
    (lvl : AlertLevel) (msg : String) (conf : ℚ) (meta : List (String × String)) :
    (s.send_alert t u ty lvl msg conf meta).1.alert_callbacks = s.alert_callbacks := by
  rcases send_alert_eq s t u ty lvl msg conf meta with ⟨he, -⟩ | ⟨cfg, -, -, -, he⟩ |
    ⟨cfg, -, -, -, he⟩
  · rw [he]
  · rw [he]
    exact can_send_alert_fst_callbacks ..
  · rw [he]
    exact can_send_alert_fst_callbacks ..

theorem send_alert_rate_ne (s : AlertService) (t : ℚ) (u : String) (ty : AlertType)
    (lvl : AlertLevel) (msg : String) (conf : ℚ) (meta : List (String × String))
    (u' : String) (ty' : AlertType) (h : ¬ (u' = u ∧ ty' = ty)) :
    (s.send_alert t u ty lvl msg conf meta).1.rate_limits u' ty' = s.rate_limits u' ty' := by
  rcases send_alert_eq s t u ty lvl msg conf meta with ⟨he, -⟩ | ⟨cfg, -, -, -, he⟩ |
    ⟨cfg, -, -, -, he⟩
  · rw [he]
  · rw [he]
    exact can_send_alert_fst_rate_ne s t u ty u' ty' h
  · rw [he]
    show (AlertService.update_rate_limits _ t u ty).rate_limits u' ty' = _
    unfold AlertService.update_rate_limits
    simp only [if_neg h]
    exact can_send_alert_fst_rate_ne s t u ty u' ty' h

theorem send_alert_cooldowns_ne (s : AlertService) (t : ℚ) (u : String) (ty : AlertType)
    (lvl : AlertLevel) (msg : String) (conf : ℚ) (meta : List (String × String))
    (u' : String) (ty' : AlertType) (h : ¬ (u' = u ∧ ty' = ty)) :
    (s.send_alert t u ty lvl msg conf meta).1.cooldowns u' ty' = s.cooldowns u' ty' := by
  rcases send_alert_eq s t u ty lvl msg conf meta with ⟨he, -⟩ | ⟨cfg, -, -, -, he⟩ |
    ⟨cfg, -, -, -, he⟩
  · rw [he]
  · rw [he]
    show (s.can_send_alert t u ty).1.cooldowns u' ty' = _
    rw [can_send_alert_fst_cooldowns]
  · rw [he]
    show (AlertService.update_rate_limits _ t u ty).cooldowns u' ty' = _
    unfold AlertService.update_rate_limits
    simp only [if_neg h]
    show (s.can_send_alert t u ty).1.cooldowns u' ty' = _
    rw [can_send_alert_fst_cooldowns]

theorem send_alert_false_cooldowns (s : AlertService) (t : ℚ) (u : String) (ty : AlertType)
    (lvl : AlertLevel) (msg : String) (conf : ℚ) (meta : List (String × String))
    (h : (s.send_alert t u ty lvl msg conf meta).2.1 = false) :
    (s.send_alert t u ty lvl msg conf meta).1.cooldowns = s.cooldowns := by
  rcases send_alert_eq s t u ty lvl msg conf meta with ⟨he, -⟩ | ⟨cfg, -, -, -, he⟩ |
    ⟨cfg, -, -, -, he⟩
  · rw [he]
  · rw [he]
    exact can_send_alert_fst_cooldowns ..
  · rw [he] at h
    simp [sendAdmitResult] at h

theorem send_alert_false_history (s : AlertService) (t : ℚ) (u : String) (ty : AlertType)
    (lvl : AlertLevel) (msg : String) (conf : ℚ) (meta : List (String × String))
    (h : (s.send_alert t u ty lvl msg conf meta).2.1 = false) :
    (s.send_alert t u ty lvl msg conf meta).1.alert_history = s.alert_history := by
  rcases send_alert_eq s t u ty lvl msg conf meta with ⟨he, -⟩ | ⟨cfg, -, -, -, he⟩ |
    ⟨cfg, -, -, -, he⟩
  · rw [he]
  · rw [he]
    exact can_send_alert_fst_history ..
  · rw [he] at h
    simp [sendAdmitResult] at h

theorem send_alert_false_rate_self (s : AlertService) (t : ℚ) (u : String) (ty : AlertType)
    (lvl : AlertLevel) (msg : String) (conf : ℚ) (meta : List (String × String))
    (h : (s.send_alert t u ty lvl msg conf meta).2.1 = false) :
    (s.send_alert t u ty lvl msg conf meta).1.rate_limits u ty = s.rate_limits u ty ∨
    (s.send_alert t u ty lvl msg conf meta).1.rate_limits u ty =
      (s.rate_limits u ty).filter (fun ts => t - 60 < ts) := by
  rcases send_alert_eq s t u ty lvl msg conf meta with ⟨he, -⟩ | ⟨cfg, -, -, -, he⟩ |
    ⟨cfg, -, -, -, he⟩
  · rw [he]
    exact Or.inl rfl
  · rw [he]
    rcases can_send_alert_cases s t u ty with hc | hc
    · rw [show (((s.can_send_alert t u ty).1, false, []) :
          AlertService × Bool × List (Except String Unit)).1 =
          (s.can_send_alert t u ty).1 from rfl, hc]
      exact Or.inl rfl
    · refine Or.inr ?_
      rw [show (((s.can_send_alert t u ty).1, false, []) :
          AlertService × Bool × List (Except String Unit)).1 =
          (s.can_send_alert t u ty).1 from rfl, hc]
      exact prunedRateState_rate_self ..
  · rw [he] at h
    simp [sendAdmitResult] at h

theorem send_alert_true_state (s : AlertService) (t : ℚ) (u : String) (ty : AlertType)
    (lvl : AlertLevel) (msg : String) (conf : ℚ) (meta : List (String × String))
    (h : (s.send_alert t u ty lvl msg conf meta).2.1 = true) :
    (s.send_alert t u ty lvl msg conf meta).1.rate_limits u ty =
      (s.rate_limits u ty).filter (fun ts => t - 60 < ts) ++ [t] ∧
    (s.send_alert t u ty lvl msg conf meta).1.cooldowns u ty = some t := by
  rcases send_alert_eq s t u ty lvl msg conf meta with ⟨he, -⟩ | ⟨cfg, -, -, hcs, he⟩ |
    ⟨cfg, -, -, htrue, he⟩
  · rw [he] at h
    simp at h
  · rw [he] at h
    simp at h
  · rw [he]
    constructor
    · show (AlertService.update_rate_limits _ t u ty).rate_limits u ty = _
      unfold AlertService.update_rate_limits
      simp only [if_pos (And.intro rfl rfl)]
      show (s.can_send_alert t u ty).1.rate_limits u ty ++ [t] = _
      rw [can_send_alert_true_fst s t u ty htrue, prunedRateState_rate_self]
    · show (AlertService.update_rate_limits _ t u ty).cooldowns u ty = _
      unfold AlertService.update_rate_limits
      simp

theorem send_alert_true_conds (s : AlertService) (t : ℚ) (u : String) (ty : AlertType)
    (lvl : AlertLevel) (msg : String) (conf : ℚ) (meta : List (String × String))
    (h : (s.send_alert t u ty lvl msg conf meta).2.1 = true) :
    ∃ cfg, s.alert_configs ty = some cfg ∧ cfg.enabled = true ∧ ¬ conf < cfg.threshold ∧
      (∀ last, s.cooldowns u ty = some last → cfg.cooldown ≤ t - last) ∧
      ((s.rate_limits u ty).filter (fun ts => t - 60 < ts)).length < cfg.max_frequency := by
  rcases send_alert_eq s t u ty lvl msg conf meta with ⟨he, -⟩ | ⟨cfg, -, -, hcs, he⟩ |
    ⟨cfg, hcfg, hth, htrue, he⟩
  · rw [he] at h
    simp at h
  · rw [he] at h
    simp at h
  · obtain ⟨cfg', hcfg', hen, hcool, hrate⟩ := can_send_alert_true_conds s t u ty htrue
    rw [hcfg] at hcfg'
    injection hcfg' with hcc
    subst hcc
    exact ⟨cfg, hcfg, hen, hth, hcool, hrate⟩

theorem send_alert_admits (s : AlertService) (t : ℚ) (u : String) (ty : AlertType)
    (lvl : AlertLevel) (msg : String) (conf : ℚ) (meta : List (String × String))
    (cfg : AlertConfig) (hcfg : s.alert_configs ty = some cfg) (hth : ¬ conf < cfg.threshold)
    (hcs : (s.can_send_alert t u ty).2 = true) :
    (s.send_alert t u ty lvl msg conf meta).2.1 = true ∧
    (s.send_alert t u ty lvl msg conf meta).2.2 =
      (s.alert_callbacks ty).map
        (fun cb => cb (sendAdmitEvent t u ty lvl msg conf meta cfg)) := by
  rcases send_alert_eq s t u ty lvl msg conf meta with ⟨he, hd⟩ | ⟨cfg', hcfg', -, hcs', -⟩ |
    ⟨cfg', hcfg', -, -, he⟩
  · rcases hd with hn | ⟨cfg', hcfg', hth'⟩
    · rw [hcfg] at hn
      exact absurd hn (by simp)
    · rw [hcfg] at hcfg'
      injection hcfg' with hcc
      subst hcc
      exact absurd hth' hth
  · rw [hcs] at hcs'
    exact absurd hcs' (by simp)
  · rw [hcfg] at hcfg'
    injection hcfg' with hcc
    subst hcc
    rw [he]
    refine ⟨rfl, ?_⟩
    show ((s.can_send_alert t u ty).1.alert_callbacks ty).map _ = _
    rw [can_send_alert_fst_callbacks]

/-! ## Trace lemmas -/

theorem runTrace_append (s : AlertService) (tr tr' : List SendCall) :
    runTrace s (tr ++ tr') = runTrace (runTrace s tr) tr' := by
  induction tr generalizing s with
  | nil => rfl
  | cons c tr ih =>
    simp only [List.cons_append, runTrace]
    exact ih _

theorem admittedTimes_append (s : AlertService) (u : String) (ty : AlertType)
    (tr tr' : List SendCall) :
    admittedTimes s u ty (tr ++ tr') =
      admittedTimes s u ty tr ++ admittedTimes (runTrace s tr) u ty tr' := by
  induction tr generalizing s with
  | nil => rfl
  | cons c tr ih =>
    simp only [List.cons_append, admittedTimes, runTrace, List.append_assoc, List.append_eq, ih]

theorem admittedTimes_singleton (s : AlertService) (u : String) (ty : AlertType)
    (c : SendCall) :
    admittedTimes s u ty [c] =
      if (runCall s c).2 = true ∧ c.user = u ∧ c.ty = ty then [c.time] else [] := by
  simp [admittedTimes]

theorem runTrace_configs (s : AlertService) (tr : List SendCall) :
    (runTrace s tr).alert_configs = s.alert_configs := by
  induction tr generalizing s with
  | nil => rfl
  | cons c tr ih =>
    simp only [runTrace]
    rw [ih]
    exact send_alert_configs ..

theorem chronological_concat (tr : List SendCall) (c : SendCall)
    (h : Chronological (tr ++ [c])) :
    Chronological tr ∧ ∀ d ∈ tr, d.time ≤ c.time := by
  rw [Chronological, List.pairwise_append] at h
  exact ⟨h.1, fun d hd => h.2.2 d hd c (by simp)⟩

/-! ## Filter and count helpers -/

theorem filter_sublist_filter_of_imp {α : Type} (p q : α → Bool)
    (h : ∀ a, p a = true → q a = true) (l : List α) :
    List.Sublist (l.filter p) (l.filter q) := by
  induction l with
  | nil => simp
  | cons a l ih =>
    by_cases hp : p a = true
    · rw [List.filter_cons_of_pos hp, List.filter_cons_of_pos (h a hp)]
      exact ih.cons₂ a
    · rw [List.filter_cons_of_neg (by simpa using hp)]
      by_cases hq : q a = true
      · rw [List.filter_cons_of_pos hq]
        exact ih.cons a
      · rw [List.filter_cons_of_neg (by simpa using hq)]
        exact ih

theorem filter_filter_of_imp {α : Type} (p q : α → Bool)
    (h : ∀ a, p a = true → q a = true) (l : List α) :
    (l.filter q).filter p = l.filter p := by
  induction l with
  | nil => rfl
  | cons a l ih =>
    by_cases hq : q a = true
    · rw [List.filter_cons_of_pos hq]
      by_cases hp : p a = true
      · rw [List.filter_cons_of_pos hp, List.filter_cons_of_pos hp, ih]
      · rw [List.filter_cons_of_neg (by simpa using hp),
          List.filter_cons_of_neg (by simpa using hp), ih]
    · have hp : ¬ p a = true := fun hp => hq (h a hp)
      rw [List.filter_cons_of_neg (by simpa using hq),
        List.filter_cons_of_neg (by simpa using hp), ih]

theorem countP_eq_countP_filter_of_imp {α : Type} (p q : α → Bool) (l : List α)
    (h : ∀ a ∈ l, p a = true → q a = true) :
    l.countP p = (l.filter q).countP p := by
  induction l with
  | nil => rfl
  | cons a l ih =>
    have ih' := ih (fun a ha => h a (by simp [ha]))
    by_cases hq : q a = true
    · rw [List.filter_cons_of_pos hq, List.countP_cons, List.countP_cons, ih']
    · have hp : ¬ p a = true := fun hp => hq (h a (by simp) hp)
      rw [List.filter_cons_of_neg (by simpa using hq), List.countP_cons, ih']
      simp [hp]

/-- Core rate-window invariant: along a chronological trace, every
admitted timestamp newer than `b - 60` (for `b` past the end of the
trace) is still present in the stored rate window. -/
theorem rate_limit_invariant (s₀ : AlertService) (u : String) (ty : AlertType)
    (tr : List SendCall) :
    ∀ b : ℚ, Chronological tr → (∀ d ∈ tr, d.time ≤ b) →
      List.Sublist ((admittedTimes s₀ u ty tr).filter (fun x => decide (b - 60 < x)))
        ((runTrace s₀ tr).rate_limits u ty) := by
  induction tr using List.reverseRecOn with
  | nil =>
    intro b _ _
    simp [admittedTimes, runTrace]
  | append_singleton tr c ih =>
    intro b hch hb
    obtain ⟨hch', hle⟩ := chronological_concat tr c hch
    have hbc : c.time ≤ b := hb c (by simp)
    have ihc := ih c.time hch' hle
    rw [admittedTimes_append, runTrace_append, admittedTimes_singleton]
    have himp : ∀ x : ℚ, decide (b - 60 < x) = true → decide (c.time - 60 < x) = true := by
      intro x hx
      rw [decide_eq_true_eq] at hx ⊢
      linarith
    have hmono := filter_sublist_filter_of_imp (fun x => decide (b - 60 < x))
      (fun x => decide (c.time - 60 < x)) himp (admittedTimes s₀ u ty tr)
    have hq_idem := filter_filter_of_imp (fun x : ℚ => decide (c.time - 60 < x))
      (fun x => decide (c.time - 60 < x)) (fun a ha => ha) (admittedTimes s₀ u ty tr)
    have step1 : List.Sublist
        ((admittedTimes s₀ u ty tr).filter (fun x => decide (c.time - 60 < x)))
        (((runTrace s₀ tr).rate_limits u ty).filter (fun x => decide (c.time - 60 < x))) := by
      have h2 := List.Sublist.filter (fun x : ℚ => decide (c.time - 60 < x)) ihc
      rwa [hq_idem] at h2
    have base : List.Sublist
        ((admittedTimes s₀ u ty tr).filter (fun x => decide (b - 60 < x)))
        (((runTrace s₀ tr).rate_limits u ty).filter (fun x => decide (c.time - 60 < x))) :=
      hmono.trans step1
    by_cases hkey : c.user = u ∧ c.ty = ty
    · obtain ⟨h1, h2⟩ := hkey
      by_cases hr : (runCall (runTrace s₀ tr) c).2 = true
      · rw [if_pos ⟨hr, h1, h2⟩]
        have hstate := send_alert_true_state (runTrace s₀ tr) c.time c.user c.ty c.level
          c.message c.confidence c.metadata hr
        rw [h1, h2] at hstate
        show List.Sublist _
          (((runTrace s₀ tr).send_alert c.time c.user c.ty c.level c.message c.confidence
            c.metadata).1.rate_limits u ty)
        rw [h1, h2, hstate.1, List.filter_append]
        by_cases hct : decide (b - 60 < c.time) = true
        · have hsing : List.filter (fun x => decide (b - 60 < x)) [c.time] = [c.time] := by
            simp only [List.filter_singleton, hct, Bool.cond_true, if_true]
          rw [hsing]
          exact base.append (List.Sublist.refl _)
        · have hsing : List.filter (fun x => decide (b - 60 < x)) [c.time] = [] := by
            simp only [List.filter_singleton, hct, Bool.cond_false, if_false]
          rw [hsing, List.append_nil]
          exact base.trans (List.sublist_append_left _ _)
      · rw [if_neg (by simp [hr])]
        rw [List.append_nil]
        have hr' : (runCall (runTrace s₀ tr) c).2 = false := by
          revert hr
          cases (runCall (runTrace s₀ tr) c).2 <;> simp
        have hrf := send_alert_false_rate_self (runTrace s₀ tr) c.time c.user c.ty c.level
          c.message c.confidence c.metadata hr'
        rw [h1, h2] at hrf
        show List.Sublist _
          (((runTrace s₀ tr).send_alert c.time c.user c.ty c.level c.message c.confidence
            c.metadata).1.rate_limits u ty)
        rw [h1, h2]
        rcases hrf with hrf | hrf
        · rw [hrf]
          exact hmono.trans ihc
        · rw [hrf]
          exact base
    · rw [if_neg (by tauto)]
      rw [List.append_nil]
      have hne := send_alert_rate_ne (runTrace s₀ tr) c.time c.user c.ty c.level c.message
        c.confidence c.metadata u ty
        (by
          rintro ⟨ha, hb'⟩
          exact hkey ⟨ha.symm, hb'.symm⟩)
      show List.Sublist _
        (((runTrace s₀ tr).send_alert c.time c.user c.ty c.level c.message c.confidence
          c.metadata).1.rate_limits u ty)
      rw [hne]
      exact hmono.trans ihc

/-- C1: for every `(userId, channel)` pair and every 60-second window
`(w, w + 60]`, the number of admitted `send_alert` calls whose timestamps
fall within that window never exceeds the channel's configured
`max_frequency`, along any chronological trace of `send_alert` calls. -/
theorem rate_limit_window_bound (s₀ : AlertService) (u : String) (ty : AlertType)
    (cfg : AlertConfig) (hcfg : s₀.alert_configs ty = some cfg) (tr : List SendCall)
    (hch : Chronological tr) (w : ℚ) :
    (admittedTimes s₀ u ty tr).countP
      (fun x => decide (w < x) && decide (x ≤ w + 60)) ≤ cfg.max_frequency := by
  revert hch
  induction tr using List.reverseRecOn with
  | nil =>
    intro _
    simp [admittedTimes]
  | append_singleton tr c ih =>
    intro hch
    obtain ⟨hch', hle⟩ := chronological_concat tr c hch
    have ihn := ih hch'
    rw [admittedTimes_append, admittedTimes_singleton, List.countP_append]
    by_cases hcond : (runCall (runTrace s₀ tr) c).2 = true ∧ c.user = u ∧ c.ty = ty
    · rw [if_pos hcond]
      by_cases hwin : (decide (w < c.time) && decide (c.time ≤ w + 60)) = true
      · have hone : List.countP (fun x => decide (w < x) && decide (x ≤ w + 60)) [c.time]
            = 1 := by
          simp only [List.countP_cons, List.countP_nil, hwin, if_true]
        rw [hone]
        obtain ⟨hr, h1, h2⟩ := hcond
        obtain ⟨cfg', hcfg', hen, hth, hcool, hrate⟩ := send_alert_true_conds
          (runTrace s₀ tr) c.time c.user c.ty c.level c.message c.confidence c.metadata hr
        rw [h2] at hcfg'
        rw [h1, h2] at hrate
        rw [runTrace_configs, hcfg] at hcfg'
        injection hcfg' with hcc
        subst hcc
        have hw2 : c.time ≤ w + 60 := by
          rw [Bool.and_eq_true, decide_eq_true_eq, decide_eq_true_eq] at hwin
          exact hwin.2
        have himp : ∀ x ∈ admittedTimes s₀ u ty tr,
            (decide (w < x) && decide (x ≤ w + 60)) = true →
              decide (c.time - 60 < x) = true := by
          intro x _ hpx
          rw [Bool.and_eq_true, decide_eq_true_eq, decide_eq_true_eq] at hpx
          rw [decide_eq_true_eq]
          linarith [hpx.1]
        have hcount := countP_eq_countP_filter_of_imp
          (fun x => decide (w < x) && decide (x ≤ w + 60))
          (fun x => decide (c.time - 60 < x)) (admittedTimes s₀ u ty tr) himp
        have hsub : List.Sublist
            ((admittedTimes s₀ u ty tr).filter (fun x => decide (c.time - 60 < x)))
            (((runTrace s₀ tr).rate_limits u ty).filter
              (fun x => decide (c.time - 60 < x))) := by
          have h3 := List.Sublist.filter (fun x : ℚ => decide (c.time - 60 < x))
            (rate_limit_invariant s₀ u ty tr c.time hch' hle)
          rwa [filter_filter_of_imp _ _ (fun a ha => ha)] at h3
        have hlen := hsub.length_le
        have hcp := List.countP_le_length
          (p := fun x => decide (w < x) && decide (x ≤ w + 60))
          (l := (admittedTimes s₀ u ty tr).filter (fun x => decide (c.time - 60 < x)))
        rw [hcount]
        omega
      · have hzero : List.countP (fun x => decide (w < x) && decide (x ≤ w + 60)) [c.time]
            = 0 := by
          simp only [List.countP_cons, List.countP_nil, hwin, if_false]
          simp [hwin]
        rw [hzero]
        simpa using ihn
    · rw [if_neg hcond]
      simpa using ihn

/-- Cooldown invariant: along a chronological trace, the stored
`cooldowns` stamp for a key equals its last admitted timestamp, and
consecutive admitted timestamps are at least `cfg.cooldown` apart. -/
theorem cooldown_invariant (s₀ : AlertService) (u : String) (ty : AlertType)
    (cfg : AlertConfig) (h0 : s₀.cooldowns u ty = none)
    (hcfg : s₀.alert_configs ty = some cfg) (tr : List SendCall) (hch : Chronological tr) :
    (runTrace s₀ tr).cooldowns u ty = (admittedTimes s₀ u ty tr).getLast? ∧
    List.Chain' (fun a b => a + cfg.cooldown ≤ b) (admittedTimes s₀ u ty tr) := by
  revert hch
  induction tr using List.reverseRecOn with
  | nil =>
    intro _
    exact ⟨h0, List.chain'_nil⟩
  | append_singleton tr c ih =>
    intro hch
    obtain ⟨hch', hle⟩ := chronological_concat tr c hch
    obtain ⟨ihcd, ihch⟩ := ih hch'
    rw [admittedTimes_append, admittedTimes_singleton, runTrace_append]
    by_cases hcond : (runCall (runTrace s₀ tr) c).2 = true ∧ c.user = u ∧ c.ty = ty
    · obtain ⟨hr, h1, h2⟩ := hcond
      rw [if_pos ⟨hr, h1, h2⟩]
      have hstate := send_alert_true_state (runTrace s₀ tr) c.time c.user c.ty c.level
        c.message c.confidence c.metadata hr
      rw [h1, h2] at hstate
      obtain ⟨cfg', hcfg', hen, hth, hcool, hrate⟩ := send_alert_true_conds
        (runTrace s₀ tr) c.time c.user c.ty c.level c.message c.confidence c.metadata hr
      rw [h2] at hcfg'
      rw [h1, h2] at hcool
      rw [runTrace_configs, hcfg] at hcfg'
      injection hcfg' with hcc
      subst hcc
      constructor
      · show ((runTrace s₀ tr).send_alert c.time c.user c.ty c.level c.message c.confidence
          c.metadata).1.cooldowns u ty = _
        rw [h1, h2, hstate.2, List.getLast?_concat]
      · rw [List.chain'_append]
        refine ⟨ihch, List.chain'_singleton _, ?_⟩
        intro x hx y hy
        simp only [List.head?_cons, Option.mem_def, Option.some.injEq] at hy
        subst hy
        rw [Option.mem_def] at hx
        have hxl : (runTrace s₀ tr).cooldowns u ty = some x := by
          rw [ihcd]
          exact hx
        have hd := hcool x hxl
        linarith
    · rw [if_neg hcond, List.append_nil]
      refine ⟨?_, ihch⟩
      by_cases hkey : c.user = u ∧ c.ty = ty
      · have hr : ¬ (runCall (runTrace s₀ tr) c).2 = true := fun hr => hcond ⟨hr, hkey⟩
        have hr' : (runCall (runTrace s₀ tr) c).2 = false := by
          revert hr
          cases (runCall (runTrace s₀ tr) c).2 <;> simp
        have hcd := send_alert_false_cooldowns (runTrace s₀ tr) c.time c.user c.ty c.level
          c.message c.confidence c.metadata hr'
        show ((runTrace s₀ tr).send_alert c.time c.user c.ty c.level c.message c.confidence
          c.metadata).1.cooldowns u ty = _
        rw [hcd]
        exact ihcd
      · have hne := send_alert_cooldowns_ne (runTrace s₀ tr) c.time c.user c.ty c.level
          c.message c.confidence c.metadata u ty
          (by
            rintro ⟨ha, hb⟩
            exact hkey ⟨ha.symm, hb.symm⟩)
        show ((runTrace s₀ tr).send_alert c.time c.user c.ty c.level c.message c.confidence
          c.metadata).1.cooldowns u ty = _
        rw [hne]
        exact ihcd

/-! ## Claim theorems -/

theorem rate_limit_window_bound_witness :
    AlertService.init.alert_configs .visual = some defaultVisualConfig ∧
    Chronological [⟨0, "u", .visual, .medium, "m", 8/10, []⟩,
      ⟨10, "u", .visual, .medium, "m", 8/10, []⟩] ∧
    (admittedTimes AlertService.init "u" .visual
        [⟨0, "u", .visual, .medium, "m", 8/10, []⟩,
         ⟨10, "u", .visual, .medium, "m", 8/10, []⟩]).countP
      (fun x => decide (0 < x) && decide (x ≤ 0 + 60)) ≤ 20 :=
  ⟨rfl, by norm_num [Chronological, List.pairwise_cons],
    rate_limit_window_bound AlertService.init "u" .visual _ rfl _
      (by norm_num [Chronological, List.pairwise_cons]) 0⟩

/-- C2: two dispatches admitted for the same `(user, channel)` are always
at least `cooldown` apart (and the stored stamp is the last admitted
time); a dispatch attempted strictly less than `cooldown` after the
recorded last admitted dispatch returns `False`; and the concrete visual
scenario: confidence 0.8 at t=0 admitted, 0.9 at t=1 rejected, 0.9 at t=4
admitted (default visual config: threshold 0.7, cooldown 3,
maxPerMinute 20). -/
theorem cooldown_spacing_and_scenario :
    (∀ (s₀ : AlertService) (u : String) (ty : AlertType) (cfg : AlertConfig)
        (tr : List SendCall), s₀.cooldowns u ty = none → s₀.alert_configs ty = some cfg →
        Chronological tr →
        (runTrace s₀ tr).cooldowns u ty = (admittedTimes s₀ u ty tr).getLast? ∧
        List.Chain' (fun a b => a + cfg.cooldown ≤ b) (admittedTimes s₀ u ty tr)) ∧
    (∀ (s : AlertService) (t : ℚ) (u : String) (ty : AlertType) (lvl : AlertLevel)
        (msg : String) (conf : ℚ) (meta : List (String × String)) (cfg : AlertConfig)
        (last : ℚ), s.alert_configs ty = some cfg → s.cooldowns u ty = some last →
        t - last < cfg.cooldown → (s.send_alert t u ty lvl msg conf meta).2.1 = false) ∧
    ((AlertService.init.send_alert 0 "u" .visual .medium "m" (8/10) []).2.1 = true ∧
      ((AlertService.init.send_alert 0 "u" .visual .medium "m" (8/10) []).1.send_alert 1 "u"
        .visual .medium "m" (9/10) []).2.1 = false ∧
      (((AlertService.init.send_alert 0 "u" .visual .medium "m" (8/10) []).1.send_alert 1 "u"
        .visual .medium "m" (9/10) []).1.send_alert 4 "u" .visual .medium "m"
        (9/10) []).2.1 = true) := by
  refine ⟨?_, ?_, ?_, ?_, ?_⟩
  · intro s₀ u ty cfg tr h0 hcfg hch
    exact cooldown_invariant s₀ u ty cfg h0 hcfg tr hch
  · intro s t u ty lvl msg conf meta cfg last hcfg hlast hlt
    cases hres : (s.send_alert t u ty lvl msg conf meta).2.1 with
    | false => rfl
    | true =>
      obtain ⟨cfg', hcfg', -, -, hcool, -⟩ := send_alert_true_conds s t u ty lvl msg conf
        meta hres
      rw [hcfg] at hcfg'
      injection hcfg' with hcc
      subst hcc
      have := hcool last hlast
      linarith
  · norm_num [AlertService.send_alert, AlertService.can_send_alert, AlertService.init,
      setup_default_configs, defaultVisualConfig, AlertService.rate_window_check, AlertService.update_rate_limits]
  · norm_num [AlertService.send_alert, AlertService.can_send_alert, AlertService.init,
      setup_default_configs, defaultVisualConfig, AlertService.rate_window_check, AlertService.update_rate_limits]
  · norm_num [AlertService.send_alert, AlertService.can_send_alert, AlertService.init,
      setup_default_configs, defaultVisualConfig, AlertService.rate_window_check, AlertService.update_rate_limits]

theorem cooldown_spacing_and_scenario_witness :
    (AlertService.init.cooldowns "u" .visual = none ∧
      AlertService.init.alert_configs .visual = some defaultVisualConfig ∧
      Chronological [⟨0, "u", .visual, .medium, "m", 8/10, []⟩]) ∧
    List.Chain' (fun a b => a + defaultVisualConfig.cooldown ≤ b)
      (admittedTimes AlertService.init "u" .visual
        [⟨0, "u", .visual, .medium, "m", 8/10, []⟩]) :=
  ⟨⟨rfl, rfl, by norm_num [Chronological, List.pairwise_cons]⟩,
    (cooldown_spacing_and_scenario.1 AlertService.init "u" .visual
      defaultVisualConfig _ rfl rfl
      (by norm_num [Chronological, List.pairwise_cons])).2⟩

theorem send_alert_below_threshold (s : AlertService) (t : ℚ) (u : String)
    (ty : AlertType) (lvl : AlertLevel) (msg : String) (conf : ℚ)
    (meta : List (String × String)) (cfg : AlertConfig)
    (hcfg : s.alert_configs ty = some cfg) (hconf : conf < cfg.threshold) :
    s.send_alert t u ty lvl msg conf meta = (s, false, []) := by
  rcases send_alert_eq s t u ty lvl msg conf meta with ⟨he, -⟩ | ⟨cfg', hcfg', hth, -, -⟩ |
    ⟨cfg', hcfg', hth, -, -⟩
  · exact he
  · rw [hcfg] at hcfg'
    injection hcfg' with hcc
    subst hcc
    exact absurd hconf hth
  · rw [hcfg] at hcfg'
    injection hcfg' with hcc
    subst hcc
    exact absurd hconf hth

/-- C3: a `send_alert` call whose confidence is strictly below the
channel's configured threshold returns `False` and leaves the whole
service state unchanged: no AlertEvent is appended, and neither
`cooldowns` nor `rate_limits` is touched. -/
theorem below_threshold_is_pure_reject (s : AlertService) (t : ℚ) (u : String)
    (ty : AlertType) (lvl : AlertLevel) (msg : String) (conf : ℚ)
    (meta : List (String × String)) (cfg : AlertConfig)
    (hcfg : s.alert_configs ty = some cfg) (hconf : conf < cfg.threshold) :
    s.send_alert t u ty lvl msg conf meta = (s, false, []) :=
  send_alert_below_threshold s t u ty lvl msg conf meta cfg hcfg hconf

theorem below_threshold_is_pure_reject_witness :
    (AlertService.init.alert_configs .visual = some defaultVisualConfig ∧
      (1 : ℚ)/2 < defaultVisualConfig.threshold) ∧
    AlertService.init.send_alert 0 "u" .visual .low "m" (1/2) [] =
      (AlertService.init, false, []) :=
  ⟨⟨rfl, by norm_num [defaultVisualConfig]⟩,
    below_threshold_is_pure_reject AlertService.init 0 "u" .visual .low "m" (1/2) [] _ rfl
      (by norm_num [defaultVisualConfig])⟩

/-- C4: once all admission checks pass, `send_alert` returns `True`
whatever the registered handlers do — a handler error is swallowed and
every registered handler for the channel is still invoked (one outcome
per handler).  And the `DispatchAll` scenario: with a visual handler and
a throwing audio handler, `send_multiple_alerts` still reports both
channels admitted, the visual handler still runs, and the audio
handler's error is contained. -/
theorem handler_errors_never_fail_dispatch :
    (∀ (s : AlertService) (t : ℚ) (u : String) (ty : AlertType) (lvl : AlertLevel)
        (msg : String) (conf : ℚ) (meta : List (String × String)) (cfg : AlertConfig),
        s.alert_configs ty = some cfg → ¬ conf < cfg.threshold →
        (s.can_send_alert t u ty).2 = true →
        (s.send_alert t u ty lvl msg conf meta).2.1 = true ∧
        (s.send_alert t u ty lvl msg conf meta).2.2.length =
          (s.alert_callbacks ty).length) ∧
    (((AlertService.init.register_callback .visual (fun _ => Except.ok ())).register_callback
        .audio (fun _ => Except.error "boom")).send_multiple_alerts 0 "u" [.visual, .audio]
        .high "m" (9/10) []).2 = [(.visual, true), (.audio, true)] ∧
    (((AlertService.init.register_callback .visual (fun _ => Except.ok ())).register_callback
        .audio (fun _ => Except.error "boom")).send_alert 0 "u" .visual .high "m"
        (9/10) []).2.2 = [Except.ok ()] ∧
    ((((AlertService.init.register_callback .visual (fun _ => Except.ok ())).register_callback
        .audio (fun _ => Except.error "boom")).send_alert 0 "u" .visual .high "m"
        (9/10) []).1.send_alert 0 "u" .audio .high "m" (9/10) []).2.2 =
      [Except.error "boom"] := by
  refine ⟨?_, ?_, ?_, ?_⟩
  · intro s t u ty lvl msg conf meta cfg hcfg hth hcs
    obtain ⟨h1, h2⟩ := send_alert_admits s t u ty lvl msg conf meta cfg hcfg hth hcs
    refine ⟨h1, ?_⟩
    rw [h2, List.length_map]
  · norm_num +decide [AlertService.send_multiple_alerts, AlertService.send_alert,
      AlertService.can_send_alert, AlertService.init, AlertService.register_callback,
      setup_default_configs, defaultVisualConfig, AlertService.rate_window_check,
      AlertService.update_rate_limits]
  · norm_num +decide [AlertService.send_alert, AlertService.can_send_alert, AlertService.init,
      AlertService.register_callback, setup_default_configs, defaultVisualConfig,
      AlertService.rate_window_check, AlertService.update_rate_limits]
  · norm_num +decide [AlertService.send_alert, AlertService.can_send_alert, AlertService.init,
      AlertService.register_callback, setup_default_configs, defaultVisualConfig,
      AlertService.rate_window_check, AlertService.update_rate_limits]

theorem handler_errors_never_fail_dispatch_witness :
    (AlertService.init.alert_configs .visual = some defaultVisualConfig ∧
      ¬ (9 : ℚ)/10 < defaultVisualConfig.threshold ∧
      (AlertService.init.can_send_alert 0 "u" .visual).2 = true) ∧
    ((AlertService.init.send_alert 0 "u" .visual .high "m" (9/10) []).2.1 = true ∧
      (AlertService.init.send_alert 0 "u" .visual .high "m" (9/10) []).2.2.length =
        (AlertService.init.alert_callbacks .visual).length) :=
  ⟨⟨rfl, by norm_num [defaultVisualConfig],
      by norm_num [AlertService.can_send_alert, AlertService.init, setup_default_configs,
        defaultVisualConfig, AlertService.rate_window_check]⟩,
    handler_errors_never_fail_dispatch.1 AlertService.init 0 "u" .visual .high "m" (9/10) []
      defaultVisualConfig rfl (by norm_num [defaultVisualConfig])
      (by norm_num [AlertService.can_send_alert, AlertService.init, setup_default_configs,
        defaultVisualConfig, AlertService.rate_window_check])⟩

theorem process_frame_loop_fst_aux (faces : List FaceObservation) :
    ∀ acc : Bool × ℚ × List (ℚ × ℚ),
      (faces.foldl
        (fun acc f =>
          if is_looking_at_screen f.gaze then
            (true, max acc.2.1 f.confidence, acc.2.2 ++ [f.gaze])
          else (acc.1, acc.2.1, acc.2.2 ++ [f.gaze])) acc).1 =
      (acc.1 || faces.any (fun f => is_looking_at_screen f.gaze)) := by
  induction faces with
  | nil =>
    intro acc
    simp
  | cons f faces ih =>
    intro acc
    simp only [List.foldl_cons, List.any_cons]
    by_cases hf : is_looking_at_screen f.gaze = true
    · rw [if_pos hf, ih]
      simp [hf]
    · rw [if_neg hf, ih]
      simp only [Bool.not_eq_true] at hf
      simp [hf]

/-- C5 counterexample: the gaze-estimation failure result `(0, 0)` is
classified as looking at the screen, so a detected face whose gaze
estimation failed makes `process_frame` report `is_peeking = true`,
not `false` as claimed. -/
theorem malformed_gaze_peeking_cex :
    is_looking_at_screen gaze_failure_result = true ∧
    (process_frame [⟨9/10, gaze_failure_result⟩] 0).is_peeking = true := by
  constructor
  · norm_num [is_looking_at_screen, gaze_failure_result]
  · norm_num [process_frame, process_frame_loop, is_looking_at_screen, gaze_failure_result]

/-- C5 (amended): the classifier is a pure function of the gaze angles;
a frame on which gaze estimation fails is treated as angles `(0, 0)`,
which the classifier evaluates as *looking at the screen*, so
`process_frame` reports `is_peeking = true` for that face. -/
theorem malformed_gaze_treated_as_peeking :
    gaze_failure_result = (0, 0) ∧
    is_looking_at_screen gaze_failure_result = true ∧
    (∀ (faces : List FaceObservation) (t : ℚ) (f : FaceObservation), f ∈ faces →
      f.gaze = gaze_failure_result → (process_frame faces t).is_peeking = true) := by
  refine ⟨rfl, by norm_num [is_looking_at_screen, gaze_failure_result], ?_⟩
  intro faces t f hf hgaze
  show (process_frame_loop faces).1 = true
  rw [process_frame_loop, process_frame_loop_fst_aux]
  simp only [Bool.false_or, List.any_eq_true]
  exact ⟨f, hf, by rw [hgaze]; norm_num [is_looking_at_screen, gaze_failure_result]⟩

theorem malformed_gaze_treated_as_peeking_witness :
    ((⟨9/10, gaze_failure_result⟩ : FaceObservation) ∈
        [(⟨9/10, gaze_failure_result⟩ : FaceObservation)] ∧
      (⟨9/10, gaze_failure_result⟩ : FaceObservation).gaze = gaze_failure_result) ∧
    (process_frame [⟨9/10, gaze_failure_result⟩] 0).is_peeking = true :=
  ⟨⟨by simp, rfl⟩,
    malformed_gaze_treated_as_peeking.2.2 [⟨9/10, gaze_failure_result⟩] 0
      ⟨9/10, gaze_failure_result⟩ (by simp) rfl⟩

/-- C6 (code behavior at the failing input): user "u" has a running loop;
the loop hits an unexpected error and exits.  The dead task is *not*
removed from `manager.detection_tasks`, no terminal status frame is
pushed, and a subsequent `start_continuous_detection` for "u" returns
without starting a new loop — the session stays registered while dead. -/
theorem loop_error_leaves_dead_task_registered :
    (detection_loop_step (start_continuous_detection DetectionSystem.init "u") "u" 0
      .error).detection_tasks = [("u", 0)] ∧
    (detection_loop_step (start_continuous_detection DetectionSystem.init "u") "u" 0
      .error).task_status 0 = some .done ∧
    (detection_loop_step (start_continuous_detection DetectionSystem.init "u") "u" 0
      .error).pushed = [] ∧
    start_continuous_detection
      (detection_loop_step (start_continuous_detection DetectionSystem.init "u") "u" 0 .error)
      "u" =
      detection_loop_step (start_continuous_detection DetectionSystem.init "u") "u" 0
        .error :=
  ⟨rfl, rfl, rfl, rfl⟩

theorem start_detection_idem (m : DetectionSystem) (u : String) :
    start_continuous_detection (start_continuous_detection m u) u =
      start_continuous_detection m u := by
  by_cases h : m.detection_tasks.any (fun p => p.1 = u) = true
  · simp [start_continuous_detection, h]
  · simp [start_continuous_detection, h]

theorem start_detection_count (m : DetectionSystem) (u : String)
    (hle : m.detection_tasks.countP (fun p => p.1 = u) ≤ 1) :
    (start_continuous_detection (start_continuous_detection m u) u).detection_tasks.countP
      (fun p => p.1 = u) = 1 := by
  rw [start_detection_idem]
  by_cases h : m.detection_tasks.any (fun p => p.1 = u) = true
  · have h1 : 0 < m.detection_tasks.countP (fun p => p.1 = u) := by
      rw [List.countP_pos_iff]
      simpa using List.any_eq_true.mp h
    have hs : start_continuous_detection m u = m := by
      unfold start_continuous_detection
      rw [if_pos h]
    rw [hs]
    omega
  · have h0 : m.detection_tasks.countP (fun p => p.1 = u) = 0 := by
      rw [List.countP_eq_zero]
      intro a ha hpa
      exact h (List.any_eq_true.mpr ⟨a, ha, hpa⟩)
    unfold start_continuous_detection
    rw [if_neg h]
    simp [List.countP_append, h0]

theorem stop_detection_none (m : DetectionSystem) (u : String)
    (h : m.detection_tasks.find? (fun p => p.1 = u) = none) :
    stop_detection m u = (m, true) := by
  unfold stop_detection
  rw [h]

theorem stop_detection_removes (m : DetectionSystem) (u : String) :
    ((stop_detection m u).1).detection_tasks.find? (fun p => p.1 = u) = none := by
  unfold stop_detection
  split
  next p hp =>
    dsimp only
    rw [List.find?_eq_none]
    intro q hq hqu
    rw [List.mem_filter] at hq
    have h2 : ¬ q.1 = u := by simpa using hq.2
    exact h2 (by simpa using hqu)
  next hp =>
    exact hp

theorem stop_detection_idem (m : DetectionSystem) (u : String) :
    (stop_detection m u).2 = true ∧
    stop_detection (stop_detection m u).1 u = ((stop_detection m u).1, true) := by
  constructor
  · unfold stop_detection
    split <;> rfl
  · exact stop_detection_none _ u (stop_detection_removes m u)

/-- C9: `start_continuous_detection` and `stop_detection` are idempotent:
a second start while a task is registered is a no-op and exactly one loop
is registered for the user; a second stop after the first is a no-op that
still reports success. -/
theorem start_stop_idempotent :
    (∀ (m : DetectionSystem) (u : String),
      start_continuous_detection (start_continuous_detection m u) u =
        start_continuous_detection m u) ∧
    (∀ (m : DetectionSystem) (u : String),
      m.detection_tasks.countP (fun p => p.1 = u) ≤ 1 →
      (start_continuous_detection (start_continuous_detection m u) u).detection_tasks.countP
        (fun p => p.1 = u) = 1) ∧
    (∀ (m : DetectionSystem) (u : String),
      (stop_detection m u).2 = true ∧
      stop_detection (stop_detection m u).1 u = ((stop_detection m u).1, true)) :=
  ⟨start_detection_idem, start_detection_count, stop_detection_idem⟩

theorem start_stop_idempotent_witness :
    DetectionSystem.init.detection_tasks.countP (fun p => p.1 = "u") ≤ 1 ∧
    (start_continuous_detection (start_continuous_detection DetectionSystem.init "u")
      "u").detection_tasks.countP (fun p => p.1 = "u") = 1 :=
  ⟨by simp [DetectionSystem.init],
    start_stop_idempotent.2.1 DetectionSystem.init "u" (by simp [DetectionSystem.init])⟩

/-- C10: on a freshly constructed service the email and sms channels have
no configuration: any `send_alert` on them — at any confidence, including
1.0 — returns `False` and leaves the service untouched, until
`update_config` first installs a configuration for the channel; only
visual, audio, haptic and notification receive default configurations. -/
theorem email_sms_unconfigured :
    AlertService.init.alert_configs .email = none ∧
    AlertService.init.alert_configs .sms = none ∧
    (AlertService.init.alert_configs .visual).isSome = true ∧
    (AlertService.init.alert_configs .audio).isSome = true ∧
    (AlertService.init.alert_configs .haptic).isSome = true ∧
    (AlertService.init.alert_configs .notification).isSome = true ∧
    (∀ (t : ℚ) (u : String) (lvl : AlertLevel) (msg : String) (conf : ℚ)
        (meta : List (String × String)),
      AlertService.init.send_alert t u .email lvl msg conf meta =
        (AlertService.init, false, []) ∧
      AlertService.init.send_alert t u .sms lvl msg conf meta =
        (AlertService.init, false, [])) ∧
    (∀ cfg : AlertConfig,
      (AlertService.init.update_config .email cfg).alert_configs .email = some cfg) :=
  ⟨rfl, rfl, rfl, rfl, rfl, rfl, fun _ _ _ _ _ _ => ⟨rfl, rfl⟩,
    fun cfg => by simp [AlertService.update_config]⟩

theorem stats_fold_spec (hga : ℚ) (alerts : List AlertEvent) :
    ∀ acc : (AlertType → ℕ) × (AlertLevel → ℕ) × ℚ × ℕ,
      (∀ ty, (alerts.foldl (stats_step hga) acc).1 ty =
        acc.1 ty + alerts.countP (fun a => a.alert_type = ty)) ∧
      (∀ lvl, (alerts.foldl (stats_step hga) acc).2.1 lvl =
        acc.2.1 lvl + alerts.countP (fun a => a.level = lvl)) ∧
      ((alerts.foldl (stats_step hga) acc).2.2.1 =
        acc.2.2.1 + (alerts.map (fun a => a.confidence)).sum) ∧
      ((alerts.foldl (stats_step hga) acc).2.2.2 =
        acc.2.2.2 + alerts.countP (fun a => decide (hga < a.timestamp))) := by
  induction alerts with
  | nil =>
    intro acc
    exact ⟨fun ty => by simp, fun lvl => by simp, by simp, by simp⟩
  | cons a alerts ih =>
    intro acc
    obtain ⟨ih1, ih2, ih3, ih4⟩ := ih (stats_step hga acc a)
    refine ⟨fun ty => ?_, fun lvl => ?_, ?_, ?_⟩
    · rw [List.foldl_cons, ih1, List.countP_cons]
      by_cases hty : a.alert_type = ty
      · simp [stats_step, hty]
        omega
      · have hty' : ¬ ty = a.alert_type := fun hh => hty hh.symm
        simp [stats_step, hty', hty]
    · rw [List.foldl_cons, ih2, List.countP_cons]
      by_cases hlv : a.level = lvl
      · simp [stats_step, hlv]
        omega
      · have hlv' : ¬ lvl = a.level := fun hh => hlv hh.symm
        simp [stats_step, hlv', hlv]
    · rw [List.foldl_cons, ih3]
      simp only [stats_step, List.map_cons, List.sum_cons]
      ring
    · rw [List.foldl_cons, ih4, List.countP_cons]
      by_cases ht : hga < a.timestamp
      · simp [stats_step, ht]
        omega
      · simp [stats_step, ht]

/-- C7 counterexample: a service state whose history holds 101 admitted
events, on which `get_alert_stats` reports `total_alerts = 100`: the
aggregation runs over `get_alert_history` with its default limit of 100,
not over the entire history. -/
theorem stats_ignore_old_history_cex :
    bigHistoryService.alert_history.length = 101 ∧
    (bigHistoryService.get_alert_stats 0 none).total_alerts = 100 := by
  constructor
  · simp [bigHistoryService]
  · simp [bigHistoryService, AlertService.get_alert_stats, AlertService.get_alert_history,
      pyTailSlice]

/-- C7 (amended): `get_alert_stats` is a read-only aggregation over the
*last 100* events of the (optionally user-filtered) history — the default
`get_alert_history` limit — with `total_alerts` their count, `byChannel`
and `byLevel` counting those same events, `average_confidence` their mean
(0 when there are none), and `recent_alerts` counting those with
timestamp inside the trailing hour. -/
theorem stats_aggregate_last_100 (s : AlertService) (now : ℚ) (uid : Option String)
    (ty : AlertType) (lvl : AlertLevel) :
    (s.get_alert_stats now uid).total_alerts = (s.get_alert_history uid 100).length ∧
    (s.get_alert_stats now uid).alerts_by_type ty =
      (s.get_alert_history uid 100).countP (fun a => a.alert_type = ty) ∧
    (s.get_alert_stats now uid).alerts_by_level lvl =
      (s.get_alert_history uid 100).countP (fun a => a.level = lvl) ∧
    (s.get_alert_stats now uid).average_confidence =
      (if (s.get_alert_history uid 100).length = 0 then 0
       else ((s.get_alert_history uid 100).map (fun a => a.confidence)).sum /
         ((s.get_alert_history uid 100).length : ℚ)) ∧
    (s.get_alert_stats now uid).recent_alerts =
      (s.get_alert_history uid 100).countP (fun a => decide (now - 3600 < a.timestamp)) := by
  unfold AlertService.get_alert_stats
  dsimp only
  split
  next hemp =>
    have he : s.get_alert_history uid 100 = [] := by
      rwa [List.isEmpty_iff] at hemp
    rw [he]
    simp
  next hemp =>
    have hne : ¬ s.get_alert_history uid 100 = [] := by
      rwa [List.isEmpty_iff] at hemp
    have hlen : ¬ (s.get_alert_history uid 100).length = 0 := by
      simpa [List.length_eq_zero] using hne
    obtain ⟨hty, hlv, hcf, hrc⟩ := stats_fold_spec (now - 3600) (s.get_alert_history uid 100)
      (fun _ => 0, fun _ => 0, 0, 0)
    refine ⟨rfl, ?_, ?_, ?_, ?_⟩
    · show ((s.get_alert_history uid 100).foldl (stats_step (now - 3600))
        (fun _ => 0, fun _ => 0, 0, 0)).1 ty = _
      rw [hty]
      simp
    · show ((s.get_alert_history uid 100).foldl (stats_step (now - 3600))
        (fun _ => 0, fun _ => 0, 0, 0)).2.1 lvl = _
      rw [hlv]
      simp
    · show (if (s.get_alert_history uid 100).length > 0 then
          ((s.get_alert_history uid 100).foldl (stats_step (now - 3600))
            (fun _ => 0, fun _ => 0, 0, 0)).2.2.1 / ((s.get_alert_history uid 100).length : ℚ)
        else 0) = _
      rw [if_neg hlen, if_pos (Nat.pos_of_ne_zero hlen), hcf]
      simp
    · show ((s.get_alert_history uid 100).foldl (stats_step (now - 3600))
        (fun _ => 0, fun _ => 0, 0, 0)).2.2.2 = _
      rw [hrc]
      simp

/-- C8 counterexample: `update_config` accepts a configuration whose
threshold 2 lies outside [0, 1]: no error is surfaced, the previous
visual configuration is replaced, and the invalid configuration takes
effect — a confidence-1 dispatch the default configuration admitted is
now rejected. -/
theorem update_config_accepts_invalid_cex :
    (1 : ℚ) < invalidConfig.threshold ∧
    (AlertService.init.update_config .visual invalidConfig).alert_configs .visual =
      some invalidConfig ∧
    ¬ (AlertService.init.update_config .visual invalidConfig).alert_configs .visual =
      AlertService.init.alert_configs .visual ∧
    (AlertService.init.send_alert 0 "u" .visual .high "m" 1 []).2.1 = true ∧
    ((AlertService.init.update_config .visual invalidConfig).send_alert 0 "u" .visual .high
      "m" 1 []).2.1 = false := by
  refine ⟨by norm_num [invalidConfig], by simp [AlertService.update_config], ?_, ?_, ?_⟩
  · simp only [AlertService.update_config, if_pos rfl]
    show ¬ some invalidConfig = AlertService.init.alert_configs .visual
    norm_num [AlertService.init, setup_default_configs, defaultVisualConfig, invalidConfig]
  · norm_num +decide [AlertService.send_alert, AlertService.can_send_alert,
      AlertService.init, setup_default_configs, defaultVisualConfig,
      AlertService.rate_window_check, AlertService.update_rate_limits]
  · norm_num +decide [AlertService.send_alert, AlertService.can_send_alert,
      AlertService.init, AlertService.update_config, setup_default_configs,
      defaultVisualConfig, invalidConfig, AlertService.rate_window_check,
      AlertService.update_rate_limits]

/-- C8 (amended): `update_config` performs no validation: every
configuration — including one with a threshold outside [0, 1] or a
negative cooldown — is installed unconditionally for its channel, no
error is surfaced, other channels and the rest of the state are
untouched, and the newly installed configuration (valid or not) governs
subsequent admission checks. -/
theorem update_config_unconditional (s : AlertService) (ty : AlertType)
    (cfg : AlertConfig) :
    (s.update_config ty cfg).alert_configs ty = some cfg ∧
    (∀ ty', ¬ ty' = ty → (s.update_config ty cfg).alert_configs ty' = s.alert_configs ty') ∧
    (s.update_config ty cfg).alert_history = s.alert_history ∧
    (s.update_config ty cfg).rate_limits = s.rate_limits ∧
    (s.update_config ty cfg).cooldowns = s.cooldowns ∧
    (∀ (t : ℚ) (u : String) (lvl : AlertLevel) (msg : String) (conf : ℚ)
        (meta : List (String × String)), conf < cfg.threshold →
      ((s.update_config ty cfg).send_alert t u ty lvl msg conf meta).2.1 = false) := by
  refine ⟨by simp [AlertService.update_config],
    fun ty' h => by simp [AlertService.update_config, h], rfl, rfl, rfl, ?_⟩
  intro t u lvl msg conf meta hconf
  have hcfg : (s.update_config ty cfg).alert_configs ty = some cfg := by
    simp [AlertService.update_config]
  rw [send_alert_below_threshold (s.update_config ty cfg) t u ty lvl msg conf meta cfg
    hcfg hconf]

theorem update_config_unconditional_witness :
    (¬ AlertType.audio = AlertType.visual ∧ (1 : ℚ)/2 < invalidConfig.threshold) ∧
    ((AlertService.init.update_config .visual invalidConfig).alert_configs .visual =
      some invalidConfig ∧
    (AlertService.init.update_config .visual invalidConfig).alert_configs .audio =
      AlertService.init.alert_configs .audio ∧
    ((AlertService.init.update_config .visual invalidConfig).send_alert 0 "u" .visual .high
      "m" (1/2) []).2.1 = false) :=
  ⟨⟨by decide, by norm_num [invalidConfig]⟩,
    (update_config_unconditional AlertService.init .visual invalidConfig).1,
    (update_config_unconditional AlertService.init .visual invalidConfig).2.1 .audio
      (by decide),
    (update_config_unconditional AlertService.init .visual invalidConfig).2.2.2.2.2 0 "u"
      .high "m" (1/2) [] (by norm_num [invalidConfig])⟩
